import Mathlib

/-!
Shallow embedding of the authentication core of the go-server repository:
the data model (internal/database/models), the user/session repositories
(internal/database/repositories), the JWT manager (internal/auth/jwt.go)
and the login/registration/session services (internal/auth).

Time is modelled as a natural number of seconds.  The bcrypt hasher and the
password verifier are external collaborators (golang.org/x/crypto/bcrypt)
and are passed in as function parameters of the services, exactly where the
Go code calls out to the library.  Errors are Go error values created with
fmt.Errorf and are modelled as their message strings.
-/

namespace GoServer

/-- internal/database/models: User (BaseModel fields inlined).
The Password field carries the bcrypt hash; its JSON tag is "-"
(hidden from JSON). -/
structure User where
  id : Nat
  createdAt : Nat
  updatedAt : Nat
  deletedAt : Option Nat
  email : String
  username : String
  password : String
  firstName : String
  lastName : String
  isActive : Bool
  isAdmin : Bool
  lastLogin : Option Nat
deriving Repr, DecidableEq

/-- internal/database/models: Session (BaseModel fields inlined). -/
structure Session where
  id : Nat
  createdAt : Nat
  userID : Nat
  token : String
  expiresAt : Nat
  ipAddress : String
  userAgent : String
  isActive : Bool
deriving Repr, DecidableEq

/-- The error the store surfaces when an insert violates a unique index
(the uniqueIndex gorm tags on users.email, users.username). -/
inductive StoreErr where
  | uniqueViolation
deriving Repr, DecidableEq

/-- Message text of a store error, as wrapped by fmt.Errorf("... %w"). -/
def StoreErr.msg : StoreErr → String
  | .uniqueViolation => "duplicated key not allowed"

/-- UserRepository.GetUserByEmail: Where("email = ?", email).First —
exact string equality on the email column (PostgreSQL / SQLite), with the
gorm soft-delete scope (deleted rows are invisible). -/
def getUserByEmail (users : List User) (email : String) : Option User :=
  users.find? (fun u => u.deletedAt.isNone && u.email == email)

/-- UserRepository.GetUserByUsername: Where("username = ?", username).First. -/
def getUserByUsername (users : List User) (username : String) : Option User :=
  users.find? (fun u => u.deletedAt.isNone && u.username == username)

/-- UserRepository.GetUserByID: First(&user, id). -/
def getUserByID (users : List User) (id : Nat) : Option User :=
  users.find? (fun u => u.deletedAt.isNone && u.id == id)

/-- UserRepository.CreateUser: gorm Create.  The unique indexes on email and
username make the insert fail when any existing row (soft-deleted rows
included, since the index covers them) has the same email or username;
otherwise the row is stored with a fresh auto-increment id. -/
def createUser (users : List User) (u : User) :
    Except StoreErr (List User × User) :=
  if users.any (fun v => v.email == u.email || v.username == u.username) then
    .error .uniqueViolation
  else
    let stored := { u with id := users.length + 1 }
    .ok (users ++ [stored], stored)

/-- UserRepository.UpdateUser: gorm Save, replacing the row with the same
primary key. -/
def updateUser (users : List User) (u : User) : List User :=
  users.map (fun v => if v.id == u.id then u else v)

/-- SessionRepository.CreateSession: gorm Create. -/
def createSession (sessions : List Session) (s : Session) : List Session :=
  sessions ++ [s]

/-- SessionRepository.GetSessionByToken:
Where("token = ? AND is_active = ? AND expires_at > ?", token, true, now).First. -/
def getSessionByToken (sessions : List Session) (now : Nat) (token : String) :
    Option Session :=
  sessions.find? (fun s => s.token == token && s.isActive && decide (now < s.expiresAt))

/-- SessionRepository.DeleteSession:
Where("user_id = ? AND token = ?", userID, sessionID).Delete — removes every
row matching both the user id and the session token.  Deleting zero rows is
not an error in gorm, so the operation is total. -/
def deleteSession (sessions : List Session) (userID : Nat) (sessionID : String) :
    List Session :=
  sessions.filter (fun s => !(s.userID == userID && s.token == sessionID))

/-- SessionRepository.CleanupExpiredSessions:
Where("expires_at < ?", now).Delete. -/
def cleanupExpiredSessions (sessions : List Session) (now : Nat) : List Session :=
  sessions.filter (fun s => !(decide (s.expiresAt < now)))

/-- internal/auth/jwt.go: the Claims payload of a bearer token. -/
structure Claims where
  userID : Nat
  username : String
  email : String
  isAdmin : Bool
  expiresAt : Nat
  issuedAt : Nat
  notBefore : Nat
  issuer : String
  subject : String
deriving Repr, DecidableEq

/-- A signed token.  Symmetric HMAC signing is modelled by recording which
secret key produced the signature; verification succeeds exactly when the
verifying manager holds the same key. -/
structure Token where
  claims : Claims
  signedWith : String
deriving Repr, DecidableEq

/-- Token validation errors of the golang-jwt library. -/
inductive TokenErr where
  | badSignature
  | expired
  | notYetValid
deriving Repr, DecidableEq

/-- Message text of a token error as produced by the jwt library. -/
def TokenErr.msg : TokenErr → String
  | .badSignature => "signature is invalid"
  | .expired => "token has expired"
  | .notYetValid => "token is not valid yet"

/-- JWTManager.GenerateToken: Claims with IssuedAt = NotBefore = now,
ExpiresAt = now + tokenDuration, Issuer = "go-server",
Subject = fmt.Sprintf of the user id, signed with the manager key. -/
def generateToken (secretKey : String) (tokenDuration : Nat) (now : Nat)
    (userID : Nat) (username email : String) (isAdmin : Bool) : Token :=
  { claims :=
      { userID := userID
        username := username
        email := email
        isAdmin := isAdmin
        expiresAt := now + tokenDuration
        issuedAt := now
        notBefore := now
        issuer := "go-server"
        subject := toString userID }
    signedWith := secretKey }

/-- JWTManager.ValidateToken: signature check first, then the registered
claim checks of jwt.ParseWithClaims — a token is unexpired while
now < ExpiresAt and usable once NotBefore ≤ now. -/
def jwtValidate (secretKey : String) (now : Nat) (t : Token) :
    Except TokenErr Claims :=
  if t.signedWith ≠ secretKey then .error .badSignature
  else if t.claims.expiresAt ≤ now then .error .expired
  else if now < t.claims.notBefore then .error .notYetValid
  else .ok t.claims

/-- internal/auth/jwt.go GenerateSessionToken: hex of 64 random bytes.
Modelled as a function of the drawn random bytes; it ignores the clock. -/
def generateSecureSessionToken (randomBytes : List Nat) : String :=
  "hex_" ++ String.intercalate "_" (randomBytes.map toString)

/-- LoginService.generateSessionToken (internal/auth login service):
fmt.Sprintf("session_%d", time.Now().UnixNano()) — derived from the clock
alone, with no random input. -/
def generateSessionToken (now : Nat) : String :=
  "session_" ++ toString now

/-- internal/auth/types.go LoginRequest. -/
structure LoginRequest where
  email : String
  password : String
deriving Repr, DecidableEq

/-- internal/auth/types.go RegisterRequest. -/
structure RegisterRequest where
  email : String
  username : String
  password : String
  firstName : String
  lastName : String
deriving Repr, DecidableEq

/-- internal/auth/types.go AuthResponse.  The SessionID field has the
omitempty JSON tag and keeps the Go zero value "" when never assigned. -/
structure AuthResponse where
  token : Token
  user : User
  expiresAt : Nat
  sessionID : String
deriving Repr, DecidableEq

/-- The persistent store visible to the auth core: the users table and the
sessions table. -/
structure Store where
  users : List User
  sessions : List Session
deriving Repr, DecidableEq

/-- The hard-coded session lifetime of Login: 24 * time.Hour, in seconds. -/
def sessionLifetime : Nat := 24 * 60 * 60

/-- LoginService: jwt manager configuration plus the bcrypt verifier
(bcrypt.CompareHashAndPassword, an external collaborator, passed as a
function; true means the password matches the hash). -/
structure LoginService where
  verify : String → String → Bool
  secretKey : String
  tokenDuration : Nat

/-- LoginService.Login.  Returns the fmt.Errorf message on failure, and on
success the AuthResponse together with the updated store.  The cache write
and the last-login update are best-effort in the source; the cache is
advisory and not part of the store, and the last-login write is modelled as
succeeding (its failure only logs). -/
def LoginService.login (ls : LoginService) (now : Nat) (st : Store)
    (req : LoginRequest) (ipAddress userAgent : String) :
    Except String AuthResponse × Store :=
  match getUserByEmail st.users req.email with
  | none => (.error "invalid credentials", st)
  | some user =>
    if !user.isActive then (.error "account is deactivated", st)
    else if !ls.verify req.password user.password then
      (.error "invalid credentials", st)
    else
      let token := generateToken ls.secretKey ls.tokenDuration now
        user.id user.username user.email user.isAdmin
      let sessionToken := generateSessionToken now
      let session : Session :=
        { id := st.sessions.length + 1
          createdAt := now
          userID := user.id
          token := sessionToken
          expiresAt := now + sessionLifetime
          ipAddress := ipAddress
          userAgent := userAgent
          isActive := true }
      let sessions := createSession st.sessions session
      let user2 := { user with lastLogin := some now }
      let users := updateUser st.users user2
      let expiresAt :=
        match jwtValidate ls.secretKey now token with
        | .ok c => c.expiresAt
        | .error _ => 0
      (.ok { token := token, user := user2, expiresAt := expiresAt,
             sessionID := sessionToken },
       { users := users, sessions := sessions })

/-- RegistrationService: jwt manager configuration plus the bcrypt hasher
(bcrypt.GenerateFromPassword, an external collaborator; its random salt is
folded into the supplied function). -/
structure RegistrationService where
  hash : String → String
  secretKey : String
  tokenDuration : Nat

/-- RegistrationService.Register.  The two pre-checks read the users table
at one instant (usersAtCheck) and the insert runs against the table as it
stands at insert time (usersAtCreate); the two coincide in a sequential
run and differ under a concurrent registration.  The service holds no
session repository: no Session row is created and the SessionID field of
the response keeps its zero value. -/
def RegistrationService.register (rs : RegistrationService) (now : Nat)
    (usersAtCheck usersAtCreate : List User) (req : RegisterRequest) :
    Except String (AuthResponse × List User) :=
  if (getUserByEmail usersAtCheck req.email).isSome then
    .error "email already registered"
  else if (getUserByUsername usersAtCheck req.username).isSome then
    .error "username already taken"
  else
    let user : User :=
      { id := 0
        createdAt := now
        updatedAt := now
        deletedAt := none
        email := req.email
        username := req.username
        password := rs.hash req.password
        firstName := req.firstName
        lastName := req.lastName
        isActive := true
        isAdmin := false
        lastLogin := none }
    match createUser usersAtCreate user with
    | .error e => .error ("failed to create user: " ++ e.msg)
    | .ok (users2, stored) =>
      let token := generateToken rs.secretKey rs.tokenDuration now
        stored.id stored.username stored.email stored.isAdmin
      let expiresAt :=
        match jwtValidate rs.secretKey now token with
        | .ok c => c.expiresAt
        | .error _ => 0
      .ok ({ token := token, user := stored, expiresAt := expiresAt,
             sessionID := "" }, users2)

/-- SessionService: the jwt manager configuration it validates with. -/
structure SessionService where
  secretKey : String
  tokenDuration : Nat

/-- SessionService.ValidateToken: verify the JWT, then a fresh read of the
user row by the subject id of the claims, then the live active check. -/
def SessionService.validateToken (ss : SessionService) (now : Nat)
    (users : List User) (t : Token) : Except String User :=
  match jwtValidate ss.secretKey now t with
  | .error e => .error ("invalid token: " ++ e.msg)
  | .ok claims =>
    match getUserByID users claims.userID with
    | none => .error "user not found: record not found"
    | some user =>
      if !user.isActive then .error "user account is deactivated"
      else .ok user

/-- SessionService.RefreshToken: validate (which re-reads the user), then
issue a brand-new token from the fields of the freshly read user record.
The function touches neither the users nor the sessions table. -/
def SessionService.refreshToken (ss : SessionService) (now : Nat)
    (users : List User) (t : Token) : Except String AuthResponse :=
  match ss.validateToken now users t with
  | .error e => .error e
  | .ok user =>
    let newToken := generateToken ss.secretKey ss.tokenDuration now
      user.id user.username user.email user.isAdmin
    let expiresAt :=
      match jwtValidate ss.secretKey now newToken with
      | .ok c => c.expiresAt
      | .error _ => 0
    .ok { token := newToken, user := user, expiresAt := expiresAt,
          sessionID := "" }

/-- SessionService.Logout: delete the session row by (userID, sessionID),
then a best-effort cache eviction whose failure is only logged.  Returns
the updated sessions table and the success flag of the whole operation
(true stands for the nil error the Go function returns). -/
def SessionService.logout (userID : Nat) (sessionID : String)
    (sessions : List Session) (cacheDeleteOk : Bool) : List Session × Bool :=
  let remaining := deleteSession sessions userID sessionID
  let _ := cacheDeleteOk
  (remaining, true)

/-- The JSON value model for the outward serialization (encoding/json). -/
inductive Json where
  | str : String → Json
  | num : Nat → Json
  | bool : Bool → Json
  | null : Json
  | obj : List (String × Json) → Json
deriving Repr

/-- The compact wire serialization of a signed token (header.claims.sig);
only its independence from the user password matters here, and a Token
holds no password field at all. -/
def tokenWire (t : Token) : String :=
  t.claims.issuer ++ "." ++ t.claims.subject ++ "." ++ toString t.claims.expiresAt

/-- encoding/json serialization of a User, following the struct tags:
the Password field has tag "-" and is never emitted; deleted_at and
last_login carry omitempty and are dropped when absent. -/
def userJson (u : User) : List (String × Json) :=
  [("id", .num u.id), ("created_at", .num u.createdAt),
   ("updated_at", .num u.updatedAt)]
  ++ (match u.deletedAt with
      | none => []
      | some d => [("deleted_at", .num d)])
  ++ [("email", .str u.email), ("username", .str u.username),
      ("first_name", .str u.firstName), ("last_name", .str u.lastName),
      ("is_active", .bool u.isActive), ("is_admin", .bool u.isAdmin)]
  ++ (match u.lastLogin with
      | none => []
      | some t => [("last_login", .num t)])

/-- encoding/json serialization of an AuthResponse, following the struct
tags; session_id carries omitempty and is dropped when empty. -/
def authResponseJson (r : AuthResponse) : List (String × Json) :=
  [("token", .str (tokenWire r.token)), ("user", .obj (userJson r.user)),
   ("expires_at", .num r.expiresAt)]
  ++ (if r.sessionID = "" then [] else [("session_id", .str r.sessionID)])

/-! Concrete fixtures used by counterexamples and witnesses. -/

/-- A concrete bcrypt verifier model: the hash of pw is "h:" ++ pw. -/
def demoVerify : String → String → Bool := fun pw h => h == "h:" ++ pw

/-- A concrete bcrypt hasher model matching demoVerify. -/
def demoHash : String → String := fun pw => "h:" ++ pw

/-- A concrete login service (secret "k", one-hour tokens). -/
def demoLS : LoginService :=
  { verify := demoVerify, secretKey := "k", tokenDuration := 3600 }

/-- A concrete registration service. -/
def demoRS : RegistrationService :=
  { hash := demoHash, secretKey := "k", tokenDuration := 3600 }

/-- A concrete session service. -/
def demoSS : SessionService := { secretKey := "k", tokenDuration := 3600 }

/-- A stored active user. -/
def demoUser : User :=
  { id := 1, createdAt := 0, updatedAt := 0, deletedAt := none,
    email := "a@x.com", username := "alice", password := "h:pw",
    firstName := "A", lastName := "B", isActive := true, isAdmin := false,
    lastLogin := none }

/-- A store holding exactly demoUser and no sessions. -/
def demoStore : Store := { users := [demoUser], sessions := [] }

/-- A login request with the correct password for demoUser. -/
def demoLoginReq : LoginRequest := { email := "a@x.com", password := "pw" }

/-- Helper: when the JWT verifies, the user row is found and the live
record is active, ValidateToken returns exactly the live store record. -/
theorem validateToken_ok_of (ss : SessionService) (now : Nat)
    (users : List User) (t : Token) (claims : Claims) (u : User)
    (hv : jwtValidate ss.secretKey now t = .ok claims)
    (hu : getUserByID users claims.userID = some u)
    (hact : u.isActive = true) :
    ss.validateToken now users t = .ok u := by
  simp [SessionService.validateToken, hv, hu, hact]

/-- Helper: what a successful JWT validation implies about the token. -/
theorem jwtValidate_ok_inv (secretKey : String) (now : Nat) (t : Token)
    (claims : Claims) (h : jwtValidate secretKey now t = .ok claims) :
    t.signedWith = secretKey ∧ now < t.claims.expiresAt ∧
      t.claims.notBefore ≤ now ∧ claims = t.claims := by
  unfold jwtValidate at h
  by_cases h1 : t.signedWith = secretKey
  · rw [if_neg (not_not.mpr h1)] at h
    by_cases h2 : t.claims.expiresAt ≤ now
    · rw [if_pos h2] at h
      exact Except.noConfusion h
    · rw [if_neg h2] at h
      by_cases h3 : now < t.claims.notBefore
      · rw [if_pos h3] at h
        exact Except.noConfusion h
      · rw [if_neg h3] at h
        injection h with h4
        exact ⟨h1, by omega, by omega, h4.symm⟩
  · rw [if_pos h1] at h
    exact Except.noConfusion h

/-- Claim C1: the session identifier persisted and returned by Login is
produced by LoginService.generateSessionToken, which is a pure function of
the clock (fmt.Sprintf("session_%d", time.Now().UnixNano())): it uses no
random input at all, so two Login runs that differ only in clock time give
DIFFERENT identifiers and the identifier is exactly computable from the
time of the call — the opposite of the claimed behaviour. -/
theorem C1_session_token_time_derived :
    (∀ now : Nat, generateSessionToken now = "session_" ++ toString now) ∧
    ((demoLS.login 1000 demoStore demoLoginReq "ip" "ua").1.toOption.map
        (fun r => r.sessionID) = some "session_1000") ∧
    ((demoLS.login 2000 demoStore demoLoginReq "ip" "ua").1.toOption.map
        (fun r => r.sessionID) = some "session_2000") ∧
    ("session_1000" == "session_2000") = false := by
  exact ⟨fun now => rfl, by decide, by decide, by decide⟩

/-- Claim C9: Logout removes exactly the session rows matching both the
given user id and the given session identifier (every other row, including
every other session of the same user, stays in the table), and afterwards
lookup-by-token on that identifier can no longer resolve that session: any
row it still returns belongs to a different user. -/
theorem C9_logout_frame (userID : Nat) (sessionID : String)
    (sessions : List Session) (cacheOk : Bool) :
    (∀ s : Session,
        s ∈ (SessionService.logout userID sessionID sessions cacheOk).1 ↔
          (s ∈ sessions ∧ ¬(s.userID = userID ∧ s.token = sessionID))) ∧
    (∀ (now : Nat) (s : Session),
        getSessionByToken
            (SessionService.logout userID sessionID sessions cacheOk).1
            now sessionID = some s →
          s.userID ≠ userID) := by
  constructor
  · intro s
    simp [SessionService.logout, deleteSession, List.mem_filter]
    tauto
  · intro now s h
    have hmem : s ∈ (SessionService.logout userID sessionID sessions cacheOk).1 :=
      List.mem_of_find?_eq_some h
    have hpred := List.find?_some h
    simp only [Bool.and_eq_true, beq_iff_eq, decide_eq_true_eq] at hpred
    have htok : s.token = sessionID := hpred.1.1
    simp only [SessionService.logout, deleteSession, List.mem_filter,
      Bool.not_eq_true', Bool.and_eq_false_iff, beq_eq_false_iff_ne] at hmem
    rcases hmem.2 with h1 | h2
    · exact h1
    · exact absurd htok h2

/-- Two sessions of the same user with distinct session identifiers. -/
def demoSession1 : Session :=
  { id := 1, createdAt := 0, userID := 1, token := "session_100",
    expiresAt := 5000, ipAddress := "ip", userAgent := "ua", isActive := true }

/-- The second session of the same user. -/
def demoSession2 : Session :=
  { id := 2, createdAt := 0, userID := 1, token := "session_200",
    expiresAt := 5000, ipAddress := "ip", userAgent := "ua", isActive := true }

/-- Witness for C9: logging user 1 out of session_100 leaves the same
other session session_200 of the same user in the table. -/
theorem C9_logout_frame_witness :
    demoSession2 ∈
      (SessionService.logout 1 "session_100" [demoSession1, demoSession2] true).1 :=
  ((C9_logout_frame 1 "session_100" [demoSession1, demoSession2] true).1
      demoSession2).mpr ⟨by simp, by decide⟩

/-- Claim C10: Logout is idempotent and always acknowledges success: the
returned flag is true for every store state (in particular when no row
matches, e.g. immediately after a previous Logout of the same session) and
for both outcomes of the best-effort cache eviction, and running Logout
twice leaves the sessions table exactly as running it once does. -/
theorem C10_logout_idempotent (userID : Nat) (sessionID : String)
    (sessions : List Session) (cacheOk cacheOk2 : Bool) :
    (SessionService.logout userID sessionID sessions cacheOk).2 = true ∧
    SessionService.logout userID sessionID
        (SessionService.logout userID sessionID sessions cacheOk).1 cacheOk2 =
      ((SessionService.logout userID sessionID sessions cacheOk).1, true) := by
  refine ⟨rfl, ?_⟩
  simp [SessionService.logout, deleteSession, List.filter_filter]

/-- Claim C2: for every token that passes signature and expiry
verification, ValidateToken reads the user row by the subject id of the
claims from the store and decides from that live record alone: it returns
the deactivated error whenever the live record has isActive = false (even
though the token itself verified), and returns exactly the live store
record when it is active. -/
theorem C2_validateToken_fresh_read (ss : SessionService) (now : Nat)
    (users : List User) (t : Token) (claims : Claims) (u : User)
    (hv : jwtValidate ss.secretKey now t = .ok claims)
    (hu : getUserByID users claims.userID = some u) :
    (u.isActive = false →
      ss.validateToken now users t = .error "user account is deactivated") ∧
    (u.isActive = true → ss.validateToken now users t = .ok u) := by
  constructor
  · intro h
    simp [SessionService.validateToken, hv, hu, h]
  · intro h
    exact validateToken_ok_of ss now users t claims u hv hu h

/-- A token issued by the demo manager at time 100 for demoUser. -/
def demoToken : Token := generateToken "k" 3600 100 1 "alice" "a@x.com" false

/-- Witness for C2: the demo token still verifies at time 200 and
ValidateToken answers with the live store record of user 1. -/
theorem C2_validateToken_fresh_read_witness :
    demoSS.validateToken 200 [demoUser] demoToken = .ok demoUser :=
  (C2_validateToken_fresh_read demoSS 200 [demoUser] demoToken
      demoToken.claims demoUser rfl rfl).2 rfl

/-- Claim C3: the error Login returns when the email matches no stored
user is the very same error value it returns when the email matches an
active user whose password verification fails — both are the generic
message "invalid credentials", so the two failures are externally
indistinguishable. -/
theorem C3_login_non_enumeration (ls : LoginService) (now : Nat)
    (st1 st2 : Store) (req : LoginRequest) (ip ua : String) (u : User)
    (h1 : getUserByEmail st1.users req.email = none)
    (h2 : getUserByEmail st2.users req.email = some u)
    (hact : u.isActive = true)
    (hpw : ls.verify req.password u.password = false) :
    (ls.login now st1 req ip ua).1 = .error "invalid credentials" ∧
    (ls.login now st2 req ip ua).1 = .error "invalid credentials" := by
  constructor
  · simp [LoginService.login, h1]
  · simp [LoginService.login, h2, hact, hpw]

/-- A store with no users at all. -/
def demoStoreEmpty : Store := { users := [], sessions := [] }

/-- A login request with a wrong password for demoUser. -/
def demoWrongReq : LoginRequest := { email := "a@x.com", password := "bad" }

/-- Witness for C3: nonexistent email (empty store) and wrong password for
the stored active user produce the identical error value. -/
theorem C3_login_non_enumeration_witness :
    (demoLS.login 100 demoStoreEmpty demoWrongReq "ip" "ua").1 =
        .error "invalid credentials" ∧
    (demoLS.login 100 demoStore demoWrongReq "ip" "ua").1 =
        .error "invalid credentials" :=
  C3_login_non_enumeration demoLS 100 demoStoreEmpty demoStore demoWrongReq
    "ip" "ua" demoUser (by decide) (by decide) (by decide) (by decide)

/-- Claim C4: on a valid unexpired token of an active user (issued by this
manager, so its lifetime is the configured tokenDuration, at a strictly
earlier instant), RefreshToken returns a new token whose subject, username,
email and admin flag come from the freshly read store record, whose expiry
is strictly later than the presented tokens expiry; and the presented token
is not invalidated: the service state is untouched (refreshToken reads and
writes no store) and the old token keeps validating, against the same user
record, at every instant up to its own original expiry. -/
theorem C4_refresh_fresh_claims_later_expiry (ss : SessionService)
    (now : Nat) (users : List User) (t : Token) (claims : Claims) (u : User)
    (hv : jwtValidate ss.secretKey now t = .ok claims)
    (hu : getUserByID users claims.userID = some u)
    (hact : u.isActive = true)
    (hlife : t.claims.expiresAt = t.claims.issuedAt + ss.tokenDuration)
    (hadv : t.claims.issuedAt < now) :
    ∃ resp : AuthResponse,
      ss.refreshToken now users t = .ok resp ∧
      resp.token.claims.userID = u.id ∧
      resp.token.claims.username = u.username ∧
      resp.token.claims.email = u.email ∧
      resp.token.claims.isAdmin = u.isAdmin ∧
      t.claims.expiresAt < resp.token.claims.expiresAt ∧
      (∀ t2 : Nat, t.claims.notBefore ≤ t2 → t2 < t.claims.expiresAt →
        ss.validateToken t2 users t = .ok u) := by
  obtain ⟨hsig, hexp, hnbf, hclaims⟩ := jwtValidate_ok_inv _ _ _ _ hv
  have hval := validateToken_ok_of ss now users t claims u hv hu hact
  unfold SessionService.refreshToken
  rw [hval]
  refine ⟨_, rfl, rfl, rfl, rfl, rfl, ?_, ?_⟩
  · show t.claims.expiresAt < now + ss.tokenDuration
    omega
  · intro t2 hnb2 hexp2
    have hv2 : jwtValidate ss.secretKey t2 t = .ok t.claims := by
      unfold jwtValidate
      rw [if_neg (not_not.mpr hsig), if_neg (by omega), if_neg (by omega)]
    exact validateToken_ok_of ss t2 users t t.claims u hv2
      (hclaims ▸ hu) hact

/-- Witness for C4: refreshing the demo token at time 200 succeeds and the
new expiry 3800 is strictly later than the old 3700. -/
theorem C4_refresh_witness :
    ∃ resp : AuthResponse,
      demoSS.refreshToken 200 [demoUser] demoToken = .ok resp ∧
      resp.token.claims.userID = demoUser.id ∧
      resp.token.claims.username = demoUser.username ∧
      resp.token.claims.email = demoUser.email ∧
      resp.token.claims.isAdmin = demoUser.isAdmin ∧
      demoToken.claims.expiresAt < resp.token.claims.expiresAt ∧
      (∀ t2 : Nat, demoToken.claims.notBefore ≤ t2 →
        t2 < demoToken.claims.expiresAt →
        demoSS.validateToken t2 [demoUser] demoToken = .ok demoUser) :=
  C4_refresh_fresh_claims_later_expiry demoSS 200 [demoUser] demoToken
    demoToken.claims demoUser rfl rfl rfl rfl (by decide)

/-- A registration request for a fresh account. -/
def demoRegReq : RegisterRequest :=
  { email := "b@x.com", username := "bob", password := "pw2",
    firstName := "B", lastName := "C" }

/-- Counterexample to C5: a successful Register over the empty store
returns an AuthResponse whose session identifier is the empty string and
whose serialized shape has only the token, user and expires_at fields —
there is no session identifier in the output, unlike Login. -/
theorem C5_counterexample :
    ((demoRS.register 100 [] [] demoRegReq).toOption.map
        (fun p => p.1.sessionID) = some "") ∧
    ((demoRS.register 100 [] [] demoRegReq).toOption.map
        (fun p => (authResponseJson p.1).map Prod.fst) =
      some ["token", "user", "expires_at"]) := by
  exact ⟨rfl, rfl⟩

/-- Claim C5 as amended: a successful Register issues a token exactly as
Login does — the token is generated from the created user record with the
configured lifetime (expiry = now + tokenDuration) — but the AuthResponse
carries an empty session identifier, which the omitempty tag drops from
the serialized output, and no Session row is persisted: the registration
service holds no session repository, so register neither reads nor writes
the sessions table. -/
theorem C5_amended_register_no_session (rs : RegistrationService)
    (now : Nat) (users : List User) (req : RegisterRequest)
    (resp : AuthResponse) (users2 : List User)
    (h : rs.register now users users req = .ok (resp, users2)) :
    resp.sessionID = "" ∧
    (authResponseJson resp).map Prod.fst = ["token", "user", "expires_at"] ∧
    resp.token = generateToken rs.secretKey rs.tokenDuration now
      resp.user.id resp.user.username resp.user.email resp.user.isAdmin ∧
    resp.token.claims.expiresAt = now + rs.tokenDuration := by
  unfold RegistrationService.register at h
  split at h
  · exact Except.noConfusion h
  · split at h
    · exact Except.noConfusion h
    · dsimp only at h
      split at h
      · exact Except.noConfusion h
      · rename_i users3 stored heq
        injection h with h4
        have h5 := congrArg Prod.fst h4
        simp only at h5
        subst h5
        refine ⟨rfl, by simp [authResponseJson], rfl, rfl⟩

/-- The user row the demo registration stores. -/
def demoRegStored : User :=
  { id := 1, createdAt := 100, updatedAt := 100, deletedAt := none,
    email := "b@x.com", username := "bob", password := "h:pw2",
    firstName := "B", lastName := "C", isActive := true, isAdmin := false,
    lastLogin := none }

/-- The AuthResponse the demo registration returns. -/
def demoRegResp : AuthResponse :=
  { token := generateToken "k" 3600 100 1 "bob" "b@x.com" false,
    user := demoRegStored, expiresAt := 3700, sessionID := "" }

/-- Witness for the amended C5 at a concrete successful registration. -/
theorem C5_amended_witness :
    demoRegResp.sessionID = "" ∧
    (authResponseJson demoRegResp).map Prod.fst =
      ["token", "user", "expires_at"] ∧
    demoRegResp.token = generateToken demoRS.secretKey demoRS.tokenDuration
      100 demoRegResp.user.id demoRegResp.user.username
      demoRegResp.user.email demoRegResp.user.isAdmin ∧
    demoRegResp.token.claims.expiresAt = 100 + demoRS.tokenDuration :=
  C5_amended_register_no_session demoRS 100 [] demoRegReq demoRegResp
    [demoRegStored] rfl

/-- A user concurrently inserted with the same email as demoRegReq between
the pre-checks and the insert. -/
def demoConcurrentUser : User :=
  { id := 1, createdAt := 0, updatedAt := 0, deletedAt := none,
    email := "b@x.com", username := "carol", password := "h:z",
    firstName := "C", lastName := "D", isActive := true, isAdmin := false,
    lastLogin := none }

/-- Counterexample to C6: with empty pre-check state (both pre-checks
pass) and a concurrent duplicate email present at insert time, Register
returns the generic wrapped store error, which is neither of the two
conflict errors. -/
theorem C6_counterexample :
    demoRS.register 100 [] [demoConcurrentUser] demoRegReq =
      .error "failed to create user: duplicated key not allowed" ∧
    ("failed to create user: duplicated key not allowed" ==
      "email already registered") = false ∧
    ("failed to create user: duplicated key not allowed" ==
      "username already taken") = false := by
  exact ⟨rfl, by decide, by decide⟩

/-- Claim C6 as amended: when both uniqueness pre-checks pass but the
store create fails with a uniqueness-constraint violation (a concurrent
duplicate email or username), Register surfaces the generic wrapped store
error "failed to create user: ..." rather than mapping the violation back
to a ConflictError; conflict errors only ever come from the pre-checks. -/
theorem C6_amended_create_conflict_generic (rs : RegistrationService)
    (now : Nat) (usersAtCheck usersAtCreate : List User)
    (req : RegisterRequest)
    (h1 : getUserByEmail usersAtCheck req.email = none)
    (h2 : getUserByUsername usersAtCheck req.username = none)
    (h3 : usersAtCreate.any
        (fun v => v.email == req.email || v.username == req.username) = true) :
    rs.register now usersAtCheck usersAtCreate req =
      .error "failed to create user: duplicated key not allowed" := by
  simp [RegistrationService.register, h1, h2, createUser, h3, StoreErr.msg]

/-- Witness for the amended C6 at the concrete racing registration. -/
theorem C6_amended_witness :
    demoRS.register 100 [] [demoConcurrentUser] demoRegReq =
      .error "failed to create user: duplicated key not allowed" :=
  C6_amended_create_conflict_generic demoRS 100 [] [demoConcurrentUser]
    demoRegReq rfl rfl (by decide)

/-- The stored email of demoUser with different letter case. -/
def demoCaseReq : LoginRequest := { email := "A@X.com", password := "pw" }

/-- A registration request whose email differs from the stored
"a@x.com" only in letter case. -/
def demoCaseRegReq : RegisterRequest :=
  { email := "A@X.com", username := "amy", password := "pw3",
    firstName := "A", lastName := "Y" }

/-- Counterexample to C7: with "a@x.com" stored, Login with "A@X.com" and
the correct password FAILS with the generic credential error (the lookup
is an exact string match), and Register with "A@X.com" SUCCEEDS instead of
failing with email_taken. -/
theorem C7_counterexample :
    (demoLS.login 100 demoStore demoCaseReq "ip" "ua").1 =
      .error "invalid credentials" ∧
    (demoRS.register 100 demoStore.users demoStore.users
        demoCaseRegReq).toOption.isSome = true := by
  exact ⟨rfl, rfl⟩

/-- Claim C7 as amended: email lookup is an exact, case-sensitive string
match (Where email = ? on PostgreSQL / SQLite, and a case-sensitive unique
index): whenever the submitted email is not byte-identical to any stored
email — in particular when it differs from a stored one only in letter
case — Login fails with the generic invalid-credentials error, and
Register with that email (and a fresh username) succeeds rather than
returning the email_taken conflict. -/
theorem C7_amended_exact_match (ls : LoginService) (rs : RegistrationService)
    (now : Nat) (st : Store) (req : LoginRequest) (rreq : RegisterRequest)
    (ip ua : String)
    (hl : ∀ u ∈ st.users, u.email ≠ req.email)
    (hremail : rreq.email = req.email)
    (hr : ∀ u ∈ st.users, u.username ≠ rreq.username) :
    (ls.login now st req ip ua).1 = .error "invalid credentials" ∧
    (rs.register now st.users st.users rreq).toOption.isSome = true := by
  have hemail : getUserByEmail st.users req.email = none := by
    rw [getUserByEmail, List.find?_eq_none]
    intro u hu
    simp [hl u hu]
  constructor
  · simp [LoginService.login, hemail]
  · have hemail2 : getUserByEmail st.users rreq.email = none :=
      hremail ▸ hemail
    have huser : getUserByUsername st.users rreq.username = none := by
      rw [getUserByUsername, List.find?_eq_none]
      intro u hu
      simp [hr u hu]
    have hany : st.users.any
        (fun v => v.email == rreq.email || v.username == rreq.username) =
          false := by
      rw [List.any_eq_false]
      intro u hu
      simp [hremail, hl u hu, hr u hu]
    simp [RegistrationService.register, hemail2, huser, createUser, hany]
    rfl

/-- Witness for the amended C7 at the concrete case-variant email. -/
theorem C7_amended_witness :
    (demoLS.login 100 demoStore demoCaseReq "ip" "ua").1 =
      .error "invalid credentials" ∧
    (demoRS.register 100 demoStore.users demoStore.users
        demoCaseRegReq).toOption.isSome = true :=
  C7_amended_exact_match demoLS demoRS 100 demoStore demoCaseReq
    demoCaseRegReq "ip" "ua" (by decide) rfl (by decide)

/-- Claim C8: the outward serialization never carries the password hash:
the serialized user has no password field at all (its tag is "-"), and the
serialized user and AuthResponse are unchanged under any change of the
password-hash field — the hash cannot influence, and so cannot reach, the
outward-facing result returned by Login, Register and Refresh. -/
theorem C8_password_hash_not_serialized :
    (∀ u : User,
      ((userJson u).map Prod.fst).all (fun k => !(k == "password")) = true) ∧
    (∀ (u : User) (p : String),
      userJson { u with password := p } = userJson u) ∧
    (∀ (r : AuthResponse) (p : String),
      authResponseJson { r with user := { r.user with password := p } } =
        authResponseJson r) := by
  refine ⟨?_, fun u p => rfl, fun r p => rfl⟩
  intro u
  rcases hd : u.deletedAt with _ | d <;> rcases hl : u.lastLogin with _ | t <;>
    simp [userJson, hd, hl]

end GoServer
